import Mathlib

/-!
Verification development for the expression-node model of
`src/V3AstNodeMath.h` (Verilator's `AstNodeMath` hierarchy).

The C++ class hierarchy is shallowly embedded as follows.

* Every concrete (`final`) node class of the file becomes one constructor of
  the inductive type `MathOp`, carrying the node's operand handles (children
  are represented by opaque `Nat` handles, `Option Nat` for optional
  operands, `List Nat` for operand lists, exactly following the `@astgen`
  operand declarations) and the node's own member variables
  (`m_ignoreCase`, `m_sideEffect`, ...).  External pointers
  (`AstVar*`, `AstEnumItem*`, `AstCFunc*`, ...) are opaque handles; pointer
  equality in the source becomes handle equality.  `VNumRange` and
  `VTimescale` are opaque handles as well - no claim inspects them.
* The `FileLine*` source-location pointer held by every `AstNode` is
  factored into the `MathNode` structure (field `fl`), since every node has
  exactly one.
* Virtual methods become Lean functions matching on `MathOp`.  The outer
  match arm corresponds to the dynamic dispatch on the receiver's concrete
  type; where a C++ override `static_cast`s its argument to the receiver's
  type (legitimate because the generic tree comparison in `AstNode` calls
  `same` only on two nodes of equal `type()`), the embedding uses an inner
  match on the second argument, totalised with the base-class default for
  the (never exercised) cross-type case.
-/

/-- Source-location handle (`FileLine*`).  Owned externally and opaque to
this file; the only operation the embedded code performs on it is pointer
comparison (`AstNullCheck::same`), modelled by equality of handles. -/
structure FileLine where
  id : Nat
deriving DecidableEq, Repr

/-- Modelled from the spec: access-mode tag of a variable reference
(read / write / read-write), the `VAccess` member of `AstNodeVarRef`
(class defined outside this file). -/
inductive VAccess where
  | read
  | write
  | readWrite
deriving DecidableEq, Repr

/-- Modelled from the spec: the constant-value abstraction `V3Number`
(implemented outside this file in V3Number.h/.cpp).  Per section 3 of the
spec the numeric domain is bit-vectors of arbitrary width; a number is a
width together with a value, kept reduced modulo `2 ^ width` by the
operations below. -/
structure V3Number where
  width : Nat
  value : Nat
deriving DecidableEq, Repr

/-- Modelled from the spec: `V3Number::isCaseEq` - case equality
(`===`) of two literal payloads is exact equality of the stored
constant, used by `AstConst::same`. -/
def V3Number.isCaseEq (a b : V3Number) : Bool :=
  a.width == b.width && a.value == b.value

/-- All-ones value of width `w`: the division-by-zero sentinel required by
the reference evaluation semantics (spec section 8: "folding `7 / 0` over
integers yields a well-defined sentinel (all-ones) result"). -/
def V3Number.allOnes (w : Nat) : V3Number :=
  ⟨w, 2 ^ w - 1⟩

/-- Two's-complement reading of a number, used by the signed-flavor
operations (spec section 3: signed-flavor means two's-complement
semantics). -/
def V3Number.toSigned (a : V3Number) : Int :=
  if a.value < 2 ^ (a.width - 1) then (a.value : Int) else (a.value : Int) - 2 ^ a.width

/-- Modelled from the spec: `V3Number::opAdd` (V3Number.cpp is outside this
file).  Section 8: fold of a binary arithmetic kind "produces a result
whose value equals the mathematical operation reduced modulo 2^w".  The
result is written into the caller-supplied accumulator `out`, whose width
the caller has pre-set to the node's width. -/
def V3Number.opAdd (out lhs rhs : V3Number) : V3Number :=
  ⟨out.width, (lhs.value + rhs.value) % 2 ^ out.width⟩

/-- Modelled from the spec: `V3Number::opSub`, mathematical subtraction
(over the integers) reduced modulo `2 ^ w` into the accumulator width. -/
def V3Number.opSub (out lhs rhs : V3Number) : V3Number :=
  ⟨out.width, (((lhs.value : Int) - rhs.value) % (2 ^ out.width : Int)).toNat⟩

/-- Modelled from the spec: `V3Number::opMul`, mathematical product reduced
modulo `2 ^ w`. -/
def V3Number.opMul (out lhs rhs : V3Number) : V3Number :=
  ⟨out.width, (lhs.value * rhs.value) % 2 ^ out.width⟩

/-- Modelled from the spec: `V3Number::opMulS`, signed (two's-complement)
product reduced modulo `2 ^ w`. -/
def V3Number.opMulS (out lhs rhs : V3Number) : V3Number :=
  ⟨out.width, ((lhs.toSigned * rhs.toSigned) % (2 ^ out.width : Int)).toNat⟩

/-- Modelled from the spec: `V3Number::opDiv`, unsigned quotient; division
by zero yields the all-ones sentinel (spec section 8). -/
def V3Number.opDiv (out lhs rhs : V3Number) : V3Number :=
  if rhs.value = 0 then V3Number.allOnes out.width
  else ⟨out.width, (lhs.value / rhs.value) % 2 ^ out.width⟩

/-- Modelled from the spec: `V3Number::opDivS`, signed quotient (C-style
truncation toward zero) reduced modulo `2 ^ w`; division by zero yields
the all-ones sentinel. -/
def V3Number.opDivS (out lhs rhs : V3Number) : V3Number :=
  if rhs.value = 0 then V3Number.allOnes out.width
  else ⟨out.width, ((lhs.toSigned.tdiv rhs.toSigned) % (2 ^ out.width : Int)).toNat⟩

/-- Modelled from the spec: `V3Number::opModDiv`, unsigned remainder;
modulus by zero yields the all-ones sentinel. -/
def V3Number.opModDiv (out lhs rhs : V3Number) : V3Number :=
  if rhs.value = 0 then V3Number.allOnes out.width
  else ⟨out.width, (lhs.value % rhs.value) % 2 ^ out.width⟩

/-- Modelled from the spec: `V3Number::opModDivS`, signed remainder
(C-style, truncating) reduced modulo `2 ^ w`; modulus by zero yields the
all-ones sentinel. -/
def V3Number.opModDivS (out lhs rhs : V3Number) : V3Number :=
  if rhs.value = 0 then V3Number.allOnes out.width
  else ⟨out.width, ((lhs.toSigned.tmod rhs.toSigned) % (2 ^ out.width : Int)).toNat⟩

/-- Modelled from the spec: `V3Number::opPow`, unsigned power reduced
modulo `2 ^ w`. -/
def V3Number.opPow (out lhs rhs : V3Number) : V3Number :=
  ⟨out.width, (lhs.value ^ rhs.value) % 2 ^ out.width⟩

/-- Result of one of the two textual render hooks (`emitVerilog` /
`emitC`).  `errorNA` models the `V3ERROR_NA_RETURN("")` macro (defined
outside this file in V3Error.h): per spec section 4.5 it signals the fatal
compile-time-only "not applicable" marker instead of producing text. -/
inductive EmitResult where
  | text (s : String)
  | errorNA
deriving DecidableEq, Repr

/-- Result of a `numberOperate` fold hook.  `errorNA` models the
`V3ERROR_NA` fatal not-applicable macro (defined outside this file);
`value n` models writing `n` into the caller-supplied accumulator. -/
inductive NumberResult where
  | value (n : V3Number)
  | errorNA
deriving DecidableEq, Repr

/-- Declared data type of a node, as far as the embedded constructors need
to distinguish it (`dtypeSetDouble`, `dtypeSetString`, `dtypeSetBit`,
`dtypeSetUInt32`, `dtypeSetUInt64`, `dtypeSetSigned32`, or not yet
resolved). -/
inductive DType where
  | unresolved
  | double
  | string
  | bit
  | uint32
  | uint64
  | signed32
deriving DecidableEq, Repr

set_option maxHeartbeats 2000000
set_option linter.unusedVariables false

/-- One constructor per concrete (`final`) node class of
`src/V3AstNodeMath.h`, in the order the classes appear in the file,
carrying the node's operand handles and member variables.  The comments
name the C++ class and its base. -/
inductive MathOp where
  -- === AstNodeMath direct subclasses ===
  | addrOfCFunc (funcp : Nat)                                              -- AstAddrOfCFunc
  | cMath (exprsp : List Nat) (cleanOut pure : Bool)                       -- AstCMath
  | consAssoc (defaultp : Option Nat)                                      -- AstConsAssoc
  | consDynArray (lhsp rhsp : Option Nat)                                  -- AstConsDynArray
  | consQueue (lhsp rhsp : Option Nat)                                     -- AstConsQueue
  | consWildcard (defaultp : Option Nat)                                   -- AstConsWildcard
  | const (num : V3Number)                                                 -- AstConst
  | emptyQueue                                                             -- AstEmptyQueue
  | enumItemRef (itemp : Nat) (classOrPackagep : Option Nat)               -- AstEnumItemRef
  | exprStmt (stmtsp : List Nat) (resultp : Nat)                            -- AstExprStmt
  | fError (filep strp : Nat)                                              -- AstFError
  | fRead (memp filep : Nat) (startp countp : Option Nat)                  -- AstFRead
  | fRewind (filep : Option Nat)                                           -- AstFRewind
  | fScanF (text : String) (filep : Option Nat) (exprsp : List Nat)        -- AstFScanF
  | fSeek (filep : Nat) (offset operation : Option Nat)                    -- AstFSeek
  | fTell (filep : Nat)                                                    -- AstFTell
  | fell (exprp : Nat) (sentreep : Option Nat)                             -- AstFell
  | gatePin (exprp rangep : Nat)                                           -- AstGatePin
  | implication (lhsp rhsp : Nat) (sentreep : Option Nat)                  -- AstImplication
  | inside (exprp : Nat) (itemsp : List Nat)                               -- AstInside
  | insideRange (lhsp rhsp : Nat)                                          -- AstInsideRange
  | lambdaArgRef (name : String) (index : Bool)                            -- AstLambdaArgRef
  | memberSel (fromp : Nat) (name : String) (varp : Option Nat)            -- AstMemberSel
  | newCopy (rhsp : Nat)                                                   -- AstNewCopy
  | newDynamic (sizep : Nat) (rhsp : Option Nat)                           -- AstNewDynamic
  | past (exprp : Nat) (ticksp sentreep : Option Nat)                      -- AstPast
  | patMember (lhssp : List Nat) (keyp repp : Option Nat) (isDefault : Bool) -- AstPatMember
  | pattern (childDTypep : Option Nat) (itemsp : List Nat)                 -- AstPattern
  | rand (seedp : Option Nat) (urandom reset : Bool)                       -- AstRand
  | rose (exprp : Nat) (sentreep : Option Nat)                             -- AstRose
  | sScanF (text : String) (exprsp : List Nat) (fromp : Nat)               -- AstSScanF
  | sampled (exprp : Nat)                                                  -- AstSampled
  | scopeName (scopeAttrp scopeEntrp : List Nat) (dpiExport forFormat : Bool) -- AstScopeName
  | setAssoc (lhsp : Nat) (keyp : Option Nat) (valuep : Nat)               -- AstSetAssoc
  | setWildcard (lhsp : Nat) (keyp : Option Nat) (valuep : Nat)            -- AstSetWildcard
  | stable (exprp : Nat) (sentreep : Option Nat)                           -- AstStable
  | systemF (lhsp : Nat)                                                   -- AstSystemF
  | testPlusArgs (searchp : Option Nat)                                    -- AstTestPlusArgs
  | uCFunc (exprsp : List Nat)                                             -- AstUCFunc
  | unbounded                                                              -- AstUnbounded
  | valuePlusArgs (searchp : Option Nat) (outp : Nat)                      -- AstValuePlusArgs
  -- === AstNodeBiop direct subclasses ===
  | bufIf1 (lhsp rhsp : Nat)                                               -- AstBufIf1
  | castDynamic (lhsp rhsp : Nat)                                          -- AstCastDynamic
  | compareNN (lhsp rhsp : Nat) (ignoreCase : Bool)                        -- AstCompareNN
  | concat (lhsp rhsp : Nat)                                               -- AstConcat
  | concatN (lhsp rhsp : Nat)                                              -- AstConcatN
  | div (lhsp rhsp : Nat)                                                  -- AstDiv
  | divD (lhsp rhsp : Nat)                                                 -- AstDivD
  | divS (lhsp rhsp : Nat)                                                 -- AstDivS
  | eqWild (lhsp rhsp : Nat)                                               -- AstEqWild
  | fGetS (lhsp rhsp : Nat)                                                -- AstFGetS
  | fUngetC (lhsp rhsp : Nat)                                              -- AstFUngetC
  | getcN (lhsp rhsp : Nat)                                                -- AstGetcN
  | getcRefN (lhsp rhsp : Nat)                                             -- AstGetcRefN
  | gt (lhsp rhsp : Nat)                                                   -- AstGt
  | gtD (lhsp rhsp : Nat)                                                  -- AstGtD
  | gtN (lhsp rhsp : Nat)                                                  -- AstGtN
  | gtS (lhsp rhsp : Nat)                                                  -- AstGtS
  | gte (lhsp rhsp : Nat)                                                  -- AstGte
  | gteD (lhsp rhsp : Nat)                                                 -- AstGteD
  | gteN (lhsp rhsp : Nat)                                                 -- AstGteN
  | gteS (lhsp rhsp : Nat)                                                 -- AstGteS
  | logAnd (lhsp rhsp : Nat)                                               -- AstLogAnd
  | logIf (lhsp rhsp : Nat)                                                -- AstLogIf
  | logOr (lhsp rhsp : Nat) (sideEffect : Bool)                            -- AstLogOr
  | lt (lhsp rhsp : Nat)                                                   -- AstLt
  | ltD (lhsp rhsp : Nat)                                                  -- AstLtD
  | ltN (lhsp rhsp : Nat)                                                  -- AstLtN
  | ltS (lhsp rhsp : Nat)                                                  -- AstLtS
  | lte (lhsp rhsp : Nat)                                                  -- AstLte
  | lteD (lhsp rhsp : Nat)                                                 -- AstLteD
  | lteN (lhsp rhsp : Nat)                                                 -- AstLteN
  | lteS (lhsp rhsp : Nat)                                                 -- AstLteS
  | modDiv (lhsp rhsp : Nat)                                               -- AstModDiv
  | modDivS (lhsp rhsp : Nat)                                              -- AstModDivS
  | neqWild (lhsp rhsp : Nat)                                              -- AstNeqWild
  | pow (lhsp rhsp : Nat)                                                  -- AstPow
  | powD (lhsp rhsp : Nat)                                                 -- AstPowD
  | powSS (lhsp rhsp : Nat)                                                -- AstPowSS
  | powSU (lhsp rhsp : Nat)                                                -- AstPowSU
  | powUS (lhsp rhsp : Nat)                                                -- AstPowUS
  | replicate (lhsp rhsp : Nat)                                            -- AstReplicate
  | replicateN (lhsp rhsp : Nat)                                           -- AstReplicateN
  | shiftL (lhsp rhsp : Nat)                                               -- AstShiftL
  | shiftR (lhsp rhsp : Nat)                                               -- AstShiftR
  | shiftRS (lhsp rhsp : Nat)                                              -- AstShiftRS
  | sub (lhsp rhsp : Nat)                                                  -- AstSub
  | subD (lhsp rhsp : Nat)                                                 -- AstSubD
  | uRandomRange (lhsp rhsp : Nat)                                         -- AstURandomRange
  -- === AstNodeBiCom subclasses ===
  | eq (lhsp rhsp : Nat)                                                   -- AstEq
  | eqCase (lhsp rhsp : Nat)                                               -- AstEqCase
  | eqD (lhsp rhsp : Nat)                                                  -- AstEqD
  | eqN (lhsp rhsp : Nat)                                                  -- AstEqN
  | logEq (lhsp rhsp : Nat)                                                -- AstLogEq
  | neq (lhsp rhsp : Nat)                                                  -- AstNeq
  | neqCase (lhsp rhsp : Nat)                                              -- AstNeqCase
  | neqD (lhsp rhsp : Nat)                                                 -- AstNeqD
  | neqN (lhsp rhsp : Nat)                                                 -- AstNeqN
  -- === AstNodeBiComAsv subclasses ===
  | add (lhsp rhsp : Nat)                                                  -- AstAdd
  | addD (lhsp rhsp : Nat)                                                 -- AstAddD
  | and (lhsp rhsp : Nat)                                                  -- AstAnd
  | mul (lhsp rhsp : Nat)                                                  -- AstMul
  | mulD (lhsp rhsp : Nat)                                                 -- AstMulD
  | mulS (lhsp rhsp : Nat)                                                 -- AstMulS
  | or (lhsp rhsp : Nat)                                                   -- AstOr
  | xor (lhsp rhsp : Nat)                                                  -- AstXor
  -- === AstNodeSel subclasses (fromp = op1, bitp = op2) ===
  | arraySel (fromp bitp : Nat)                                            -- AstArraySel
  | assocSel (fromp bitp : Nat)                                            -- AstAssocSel
  | wildcardSel (fromp bitp : Nat)                                         -- AstWildcardSel
  | wordSel (fromp bitp : Nat)                                             -- AstWordSel
  -- === AstNodeStream subclasses ===
  | streamL (lhsp rhsp : Nat)                                              -- AstStreamL
  | streamR (lhsp rhsp : Nat)                                              -- AstStreamR
  -- === AstNodeSystemBiop subclasses ===
  | atan2D (lhsp rhsp : Nat)                                               -- AstAtan2D
  | hypotD (lhsp rhsp : Nat)                                               -- AstHypotD
  -- === AstNodeQuadop subclasses ===
  | countBits (lhsp rhsp thsp fhsp : Nat)                                  -- AstCountBits
  -- === AstNodeTermop subclasses ===
  | time (timeunit : Nat)                                                  -- AstTime
  | timeD (timeunit : Nat)                                                 -- AstTimeD
  -- === AstNodeTriop direct subclasses ===
  | postAdd (lhsp rhsp thsp : Nat)                                         -- AstPostAdd
  | postSub (lhsp rhsp thsp : Nat)                                         -- AstPostSub
  | preAdd (lhsp rhsp thsp : Nat)                                          -- AstPreAdd
  | preSub (lhsp rhsp thsp : Nat)                                          -- AstPreSub
  | putcN (lhsp rhsp thsp : Nat)                                           -- AstPutcN
  | sel (fromp lsbp widthp : Nat) (declRange : Nat) (declElWidth : Int)    -- AstSel
  | sliceSel (fromp lsbp widthp : Nat) (declRange : Nat)                   -- AstSliceSel
  | substrN (lhsp rhsp thsp : Nat)                                         -- AstSubstrN
  -- === AstNodeCond subclasses ===
  | cond (condp thenp elsep : Nat)                                         -- AstCond
  | condBound (condp thenp elsep : Nat)                                    -- AstCondBound
  -- === AstNodeUniop subclasses ===
  | atoN (lhsp : Nat) (fmt : Int)                                          -- AstAtoN
  | bitsToRealD (lhsp : Nat)                                               -- AstBitsToRealD
  | cCast (lhsp : Nat) (size : Int)                                        -- AstCCast
  | cLog2 (lhsp : Nat)                                                     -- AstCLog2
  | countOnes (lhsp : Nat)                                                 -- AstCountOnes
  | cvtPackString (lhsp : Nat)                                             -- AstCvtPackString
  | extend (lhsp : Nat)                                                    -- AstExtend
  | extendS (lhsp : Nat)                                                   -- AstExtendS
  | fEof (lhsp : Nat)                                                      -- AstFEof
  | fGetC (lhsp : Nat)                                                     -- AstFGetC
  | iSToRD (lhsp : Nat)                                                    -- AstISToRD
  | iToRD (lhsp : Nat)                                                     -- AstIToRD
  | isUnbounded (lhsp : Nat)                                               -- AstIsUnbounded
  | isUnknown (lhsp : Nat)                                                 -- AstIsUnknown
  | lenN (lhsp : Nat)                                                      -- AstLenN
  | logNot (lhsp : Nat)                                                    -- AstLogNot
  | negate (lhsp : Nat)                                                    -- AstNegate
  | negateD (lhsp : Nat)                                                   -- AstNegateD
  | not (lhsp : Nat)                                                       -- AstNot
  | nullCheck (lhsp : Nat)                                                 -- AstNullCheck
  | oneHot (lhsp : Nat)                                                    -- AstOneHot
  | oneHot0 (lhsp : Nat)                                                   -- AstOneHot0
  | rToIRoundS (lhsp : Nat)                                                -- AstRToIRoundS
  | rToIS (lhsp : Nat)                                                     -- AstRToIS
  | realToBits (lhsp : Nat)                                                -- AstRealToBits
  | redAnd (lhsp : Nat)                                                    -- AstRedAnd
  | redOr (lhsp : Nat)                                                     -- AstRedOr
  | redXor (lhsp : Nat)                                                    -- AstRedXor
  | signed (lhsp : Nat)                                                    -- AstSigned
  | timeImport (lhsp : Nat) (timeunit : Nat)                               -- AstTimeImport
  | toLowerN (lhsp : Nat)                                                  -- AstToLowerN
  | toUpperN (lhsp : Nat)                                                  -- AstToUpperN
  | unsigned (lhsp : Nat)                                                  -- AstUnsigned
  -- === AstNodeSystemUniop subclasses ===
  | acosD (lhsp : Nat)                                                     -- AstAcosD
  | acoshD (lhsp : Nat)                                                    -- AstAcoshD
  | asinD (lhsp : Nat)                                                     -- AstAsinD
  | asinhD (lhsp : Nat)                                                    -- AstAsinhD
  | atanD (lhsp : Nat)                                                     -- AstAtanD
  | atanhD (lhsp : Nat)                                                    -- AstAtanhD
  | ceilD (lhsp : Nat)                                                     -- AstCeilD
  | cosD (lhsp : Nat)                                                      -- AstCosD
  | coshD (lhsp : Nat)                                                     -- AstCoshD
  | expD (lhsp : Nat)                                                      -- AstExpD
  | floorD (lhsp : Nat)                                                    -- AstFloorD
  | log10D (lhsp : Nat)                                                    -- AstLog10D
  | logD (lhsp : Nat)                                                      -- AstLogD
  | sinD (lhsp : Nat)                                                      -- AstSinD
  | sinhD (lhsp : Nat)                                                     -- AstSinhD
  | sqrtD (lhsp : Nat)                                                     -- AstSqrtD
  | tanD (lhsp : Nat)                                                      -- AstTanD
  | tanhD (lhsp : Nat)                                                     -- AstTanhD
  -- === AstNodeVarRef subclasses ===
  | varRef (name : String) (access : VAccess) (varp varScopep classOrPackagep : Option Nat)
      (selfPointer : String)                                               -- AstVarRef
  | varXRef (name : String) (access : VAccess) (varp varScopep classOrPackagep : Option Nat)
      (selfPointer : String) (dotted inlinedDots : String)                 -- AstVarXRef

/-- An expression node: its source location plus its kind-specific data.
Children are opaque handles inside `MathOp`; the generic infrastructure
(outside this file) compares operand subtrees separately. -/
structure MathNode where
  fl : FileLine
  op : MathOp

/-- The discriminant (operator kind) of a node: one value per concrete
class, mirroring `VNType` for this hierarchy. -/
inductive NodeKind where
  | addrOfCFunc
  | cMath
  | consAssoc
  | consDynArray
  | consQueue
  | consWildcard
  | const
  | emptyQueue
  | enumItemRef
  | exprStmt
  | fError
  | fRead
  | fRewind
  | fScanF
  | fSeek
  | fTell
  | fell
  | gatePin
  | implication
  | inside
  | insideRange
  | lambdaArgRef
  | memberSel
  | newCopy
  | newDynamic
  | past
  | patMember
  | pattern
  | rand
  | rose
  | sScanF
  | sampled
  | scopeName
  | setAssoc
  | setWildcard
  | stable
  | systemF
  | testPlusArgs
  | uCFunc
  | unbounded
  | valuePlusArgs
  | bufIf1
  | castDynamic
  | compareNN
  | concat
  | concatN
  | div
  | divD
  | divS
  | eqWild
  | fGetS
  | fUngetC
  | getcN
  | getcRefN
  | gt
  | gtD
  | gtN
  | gtS
  | gte
  | gteD
  | gteN
  | gteS
  | logAnd
  | logIf
  | logOr
  | lt
  | ltD
  | ltN
  | ltS
  | lte
  | lteD
  | lteN
  | lteS
  | modDiv
  | modDivS
  | neqWild
  | pow
  | powD
  | powSS
  | powSU
  | powUS
  | replicate
  | replicateN
  | shiftL
  | shiftR
  | shiftRS
  | sub
  | subD
  | uRandomRange
  | eq
  | eqCase
  | eqD
  | eqN
  | logEq
  | neq
  | neqCase
  | neqD
  | neqN
  | add
  | addD
  | and
  | mul
  | mulD
  | mulS
  | or
  | xor
  | arraySel
  | assocSel
  | wildcardSel
  | wordSel
  | streamL
  | streamR
  | atan2D
  | hypotD
  | countBits
  | time
  | timeD
  | postAdd
  | postSub
  | preAdd
  | preSub
  | putcN
  | sel
  | sliceSel
  | substrN
  | cond
  | condBound
  | atoN
  | bitsToRealD
  | cCast
  | cLog2
  | countOnes
  | cvtPackString
  | extend
  | extendS
  | fEof
  | fGetC
  | iSToRD
  | iToRD
  | isUnbounded
  | isUnknown
  | lenN
  | logNot
  | negate
  | negateD
  | not
  | nullCheck
  | oneHot
  | oneHot0
  | rToIRoundS
  | rToIS
  | realToBits
  | redAnd
  | redOr
  | redXor
  | signed
  | timeImport
  | toLowerN
  | toUpperN
  | unsigned
  | acosD
  | acoshD
  | asinD
  | asinhD
  | atanD
  | atanhD
  | ceilD
  | cosD
  | coshD
  | expD
  | floorD
  | log10D
  | logD
  | sinD
  | sinhD
  | sqrtD
  | tanD
  | tanhD
  | varRef
  | varXRef
deriving DecidableEq, Repr

/-- The concrete kind (dynamic type) of a node, as `type()` reports it. -/
def kindOf : MathOp → NodeKind
  | .addrOfCFunc .. => .addrOfCFunc
  | .cMath .. => .cMath
  | .consAssoc .. => .consAssoc
  | .consDynArray .. => .consDynArray
  | .consQueue .. => .consQueue
  | .consWildcard .. => .consWildcard
  | .const .. => .const
  | .emptyQueue .. => .emptyQueue
  | .enumItemRef .. => .enumItemRef
  | .exprStmt .. => .exprStmt
  | .fError .. => .fError
  | .fRead .. => .fRead
  | .fRewind .. => .fRewind
  | .fScanF .. => .fScanF
  | .fSeek .. => .fSeek
  | .fTell .. => .fTell
  | .fell .. => .fell
  | .gatePin .. => .gatePin
  | .implication .. => .implication
  | .inside .. => .inside
  | .insideRange .. => .insideRange
  | .lambdaArgRef .. => .lambdaArgRef
  | .memberSel .. => .memberSel
  | .newCopy .. => .newCopy
  | .newDynamic .. => .newDynamic
  | .past .. => .past
  | .patMember .. => .patMember
  | .pattern .. => .pattern
  | .rand .. => .rand
  | .rose .. => .rose
  | .sScanF .. => .sScanF
  | .sampled .. => .sampled
  | .scopeName .. => .scopeName
  | .setAssoc .. => .setAssoc
  | .setWildcard .. => .setWildcard
  | .stable .. => .stable
  | .systemF .. => .systemF
  | .testPlusArgs .. => .testPlusArgs
  | .uCFunc .. => .uCFunc
  | .unbounded .. => .unbounded
  | .valuePlusArgs .. => .valuePlusArgs
  | .bufIf1 .. => .bufIf1
  | .castDynamic .. => .castDynamic
  | .compareNN .. => .compareNN
  | .concat .. => .concat
  | .concatN .. => .concatN
  | .div .. => .div
  | .divD .. => .divD
  | .divS .. => .divS
  | .eqWild .. => .eqWild
  | .fGetS .. => .fGetS
  | .fUngetC .. => .fUngetC
  | .getcN .. => .getcN
  | .getcRefN .. => .getcRefN
  | .gt .. => .gt
  | .gtD .. => .gtD
  | .gtN .. => .gtN
  | .gtS .. => .gtS
  | .gte .. => .gte
  | .gteD .. => .gteD
  | .gteN .. => .gteN
  | .gteS .. => .gteS
  | .logAnd .. => .logAnd
  | .logIf .. => .logIf
  | .logOr .. => .logOr
  | .lt .. => .lt
  | .ltD .. => .ltD
  | .ltN .. => .ltN
  | .ltS .. => .ltS
  | .lte .. => .lte
  | .lteD .. => .lteD
  | .lteN .. => .lteN
  | .lteS .. => .lteS
  | .modDiv .. => .modDiv
  | .modDivS .. => .modDivS
  | .neqWild .. => .neqWild
  | .pow .. => .pow
  | .powD .. => .powD
  | .powSS .. => .powSS
  | .powSU .. => .powSU
  | .powUS .. => .powUS
  | .replicate .. => .replicate
  | .replicateN .. => .replicateN
  | .shiftL .. => .shiftL
  | .shiftR .. => .shiftR
  | .shiftRS .. => .shiftRS
  | .sub .. => .sub
  | .subD .. => .subD
  | .uRandomRange .. => .uRandomRange
  | .eq .. => .eq
  | .eqCase .. => .eqCase
  | .eqD .. => .eqD
  | .eqN .. => .eqN
  | .logEq .. => .logEq
  | .neq .. => .neq
  | .neqCase .. => .neqCase
  | .neqD .. => .neqD
  | .neqN .. => .neqN
  | .add .. => .add
  | .addD .. => .addD
  | .and .. => .and
  | .mul .. => .mul
  | .mulD .. => .mulD
  | .mulS .. => .mulS
  | .or .. => .or
  | .xor .. => .xor
  | .arraySel .. => .arraySel
  | .assocSel .. => .assocSel
  | .wildcardSel .. => .wildcardSel
  | .wordSel .. => .wordSel
  | .streamL .. => .streamL
  | .streamR .. => .streamR
  | .atan2D .. => .atan2D
  | .hypotD .. => .hypotD
  | .countBits .. => .countBits
  | .time .. => .time
  | .timeD .. => .timeD
  | .postAdd .. => .postAdd
  | .postSub .. => .postSub
  | .preAdd .. => .preAdd
  | .preSub .. => .preSub
  | .putcN .. => .putcN
  | .sel .. => .sel
  | .sliceSel .. => .sliceSel
  | .substrN .. => .substrN
  | .cond .. => .cond
  | .condBound .. => .condBound
  | .atoN .. => .atoN
  | .bitsToRealD .. => .bitsToRealD
  | .cCast .. => .cCast
  | .cLog2 .. => .cLog2
  | .countOnes .. => .countOnes
  | .cvtPackString .. => .cvtPackString
  | .extend .. => .extend
  | .extendS .. => .extendS
  | .fEof .. => .fEof
  | .fGetC .. => .fGetC
  | .iSToRD .. => .iSToRD
  | .iToRD .. => .iToRD
  | .isUnbounded .. => .isUnbounded
  | .isUnknown .. => .isUnknown
  | .lenN .. => .lenN
  | .logNot .. => .logNot
  | .negate .. => .negate
  | .negateD .. => .negateD
  | .not .. => .not
  | .nullCheck .. => .nullCheck
  | .oneHot .. => .oneHot
  | .oneHot0 .. => .oneHot0
  | .rToIRoundS .. => .rToIRoundS
  | .rToIS .. => .rToIS
  | .realToBits .. => .realToBits
  | .redAnd .. => .redAnd
  | .redOr .. => .redOr
  | .redXor .. => .redXor
  | .signed .. => .signed
  | .timeImport .. => .timeImport
  | .toLowerN .. => .toLowerN
  | .toUpperN .. => .toUpperN
  | .unsigned .. => .unsigned
  | .acosD .. => .acosD
  | .acoshD .. => .acoshD
  | .asinD .. => .asinD
  | .asinhD .. => .asinhD
  | .atanD .. => .atanD
  | .atanhD .. => .atanhD
  | .ceilD .. => .ceilD
  | .cosD .. => .cosD
  | .coshD .. => .coshD
  | .expD .. => .expD
  | .floorD .. => .floorD
  | .log10D .. => .log10D
  | .logD .. => .logD
  | .sinD .. => .sinD
  | .sinhD .. => .sinhD
  | .sqrtD .. => .sqrtD
  | .tanD .. => .tanD
  | .tanhD .. => .tanhD
  | .varRef .. => .varRef
  | .varXRef .. => .varXRef

/-- Operand-arity category of a kind, determined by its base class:
`AstNodeBiop`/`AstNodeBiCom`/`AstNodeBiComAsv`/`AstNodeSel`/`AstNodeStream`/
`AstNodeSystemBiop` are `binary`; `AstNodeTriop`/`AstNodeCond` are
`ternary`; `AstNodeUniop`/`AstNodeSystemUniop` are `unary`;
`AstNodeQuadop` is `quaternary`; `AstNodeTermop` is `terminal`;
`AstNodeVarRef` is `variableReference`; the remaining kinds derive from
`AstNodeMath` directly. -/
inductive Category where
  | mathDirect
  | terminal
  | unary
  | binary
  | ternary
  | quaternary
  | variableReference
deriving DecidableEq, Repr

/-- Category of each concrete kind (see `Category`). -/
def category : NodeKind → Category
  | .bufIf1 | .castDynamic | .compareNN | .concat | .concatN => .binary
  | .div | .divD | .divS | .eqWild | .fGetS => .binary
  | .fUngetC | .getcN | .getcRefN | .gt | .gtD => .binary
  | .gtN | .gtS | .gte | .gteD | .gteN => .binary
  | .gteS | .logAnd | .logIf | .logOr | .lt => .binary
  | .ltD | .ltN | .ltS | .lte | .lteD => .binary
  | .lteN | .lteS | .modDiv | .modDivS | .neqWild => .binary
  | .pow | .powD | .powSS | .powSU | .powUS => .binary
  | .replicate | .replicateN | .shiftL | .shiftR | .shiftRS => .binary
  | .sub | .subD | .uRandomRange | .eq | .eqCase => .binary
  | .eqD | .eqN | .logEq | .neq | .neqCase => .binary
  | .neqD | .neqN | .add | .addD | .and => .binary
  | .mul | .mulD | .mulS | .or | .xor => .binary
  | .arraySel | .assocSel | .wildcardSel | .wordSel | .streamL => .binary
  | .streamR | .atan2D | .hypotD => .binary
  | .postAdd | .postSub | .preAdd | .preSub | .putcN => .ternary
  | .sel | .sliceSel | .substrN | .cond | .condBound => .ternary
  | .atoN | .bitsToRealD | .cCast | .cLog2 | .countOnes => .unary
  | .cvtPackString | .extend | .extendS | .fEof | .fGetC => .unary
  | .iSToRD | .iToRD | .isUnbounded | .isUnknown | .lenN => .unary
  | .logNot | .negate | .negateD | .not | .nullCheck => .unary
  | .oneHot | .oneHot0 | .rToIRoundS | .rToIS | .realToBits => .unary
  | .redAnd | .redOr | .redXor | .signed | .timeImport => .unary
  | .toLowerN | .toUpperN | .unsigned | .acosD | .acoshD => .unary
  | .asinD | .asinhD | .atanD | .atanhD | .ceilD => .unary
  | .cosD | .coshD | .expD | .floorD | .log10D => .unary
  | .logD | .sinD | .sinhD | .sqrtD | .tanD => .unary
  | .tanhD => .unary
  | .countBits => .quaternary
  | .time | .timeD => .terminal
  | .varRef | .varXRef => .variableReference
  | _ => .mathDirect

/-- True exactly for the subclasses of `AstNodeCond` (the only ternary
kinds whose base declares the three-operand `cloneType`). -/
def isCondFamily : NodeKind → Bool
  | .cond | .condBound => true
  | _ => false

/-- True exactly for the subclasses of `AstNodeSystemBiop` and
`AstNodeSystemUniop` (the "system math" double-flavor kinds). -/
def isSystemMath : NodeKind → Bool
  | .atan2D | .hypotD | .acosD | .acoshD | .asinD => true
  | .asinhD | .atanD | .atanhD | .ceilD | .cosD => true
  | .coshD | .expD | .floorD | .log10D | .logD => true
  | .sinD | .sinhD | .sqrtD | .tanD | .tanhD => true
  | _ => false

/-- `doubleFlavor()` as reported by each kind: the `AstNodeSystemBiop` /
`AstNodeSystemUniop` bases return `true`, as do the overrides in the
D-suffixed arithmetic/relational kinds; the `AstNodeBiop` / `AstNodeUniop`
defaults return `false`.  The function reads nothing but the kind: the
C++ overrides are constant. -/
def doubleFlavorOf : NodeKind → Bool
  | .atan2D | .hypotD | .acosD | .acoshD | .asinD => true
  | .asinhD | .atanD | .atanhD | .ceilD | .cosD => true
  | .coshD | .expD | .floorD | .log10D | .logD => true
  | .sinD | .sinhD | .sqrtD | .tanD | .tanhD => true
  | .divD | .gtD | .gteD | .ltD | .lteD => true
  | .powD | .subD | .eqD | .neqD | .addD => true
  | .mulD | .negateD => true
  | _ => false

/-- Structural equality hook `same`: dispatches on the first node's concrete
kind (virtual dispatch).  Kinds overriding `same` in the source compare
their node-local payload; the category bases (`AstNodeBiop`,
`AstNodeTriop`, `AstNodeQuadop`, `AstNodeUniop`) and the node kinds whose
override is the constant `return true` compare nothing - operand subtrees
are compared separately by the generic infrastructure, which also invokes
`same` only on two nodes of equal concrete kind (the inner matches'
catch-alls are the never-exercised cross-type completion).
`AstNullCheck::same` is the one override that reads the source locations:
`fileline() == samep->fileline()`.  `AstVarRef::same` is declared in this
file but defined elsewhere; modelled from the spec (section 3): equality
of all node-local semantic fields (name, access mode, variable and
var-scope targets, self-pointer text).  `AstVarXRef::same` is from the
source: it compares self-pointer, variable target, name and dotted path. -/
def same (a b : MathNode) : Bool :=
  match a.op with
  | .const n1 =>
    match b.op with
    | .const n2 => n1.isCaseEq n2
    | _ => true
  | .enumItemRef i1 _ =>
    match b.op with
    | .enumItemRef i2 _ => i1 == i2
    | _ => true
  | .fScanF t1 _ _ =>
    match b.op with
    | .fScanF t2 _ _ => t1 == t2
    | _ => true
  | .sScanF t1 _ _ =>
    match b.op with
    | .sScanF t2 _ _ => t1 == t2
    | _ => true
  | .scopeName _ _ d1 f1 =>
    match b.op with
    | .scopeName _ _ d2 f2 => d1 == d2 && f1 == f2
    | _ => true
  | .logOr _ _ s1 =>
    match b.op with
    | .logOr _ _ s2 => s1 == s2
    | _ => true
  | .cCast _ sz1 =>
    match b.op with
    | .cCast _ sz2 => sz1 == sz2
    | _ => true
  | .nullCheck _ => a.fl == b.fl
  | .varRef n1 a1 v1 vs1 _ sp1 =>
    match b.op with
    | .varRef n2 a2 v2 vs2 _ sp2 =>
      n1 == n2 && a1 == a2 && v1 == v2 && vs1 == vs2 && sp1 == sp2
    | _ => true
  | .varXRef n1 _ v1 _ _ sp1 d1 _ =>
    match b.op with
    | .varXRef n2 _ v2 _ _ sp2 d2 _ =>
      sp1 == sp2 && v1 == v2 && n1 == n2 && d1 == d2
    | _ => true
  | _ => true

/-- `cloneType(lhsp, rhsp)`: the two-operand clone-with-operands contract
declared pure-virtual in `AstNodeBiop` and overridden by every concrete
binary kind as `new AstX(this->fileline(), lhsp, rhsp)` - except
`AstCompareNN`, which additionally passes its `m_ignoreCase` flag to the
constructor.  `AstLogOr::cloneType` calls the plain constructor, so the
clone's `m_sideEffect` member takes its in-class initialiser `false`.
Kinds whose class does not declare `cloneType` yield `none`. -/
def cloneType (n : MathNode) (lhsp rhsp : Nat) : Option MathNode :=
  match n.op with
  | .bufIf1 _ _ => some ⟨n.fl, .bufIf1 lhsp rhsp⟩
  | .castDynamic _ _ => some ⟨n.fl, .castDynamic lhsp rhsp⟩
  | .compareNN _ _ ic => some ⟨n.fl, .compareNN lhsp rhsp ic⟩
  | .concat _ _ => some ⟨n.fl, .concat lhsp rhsp⟩
  | .concatN _ _ => some ⟨n.fl, .concatN lhsp rhsp⟩
  | .div _ _ => some ⟨n.fl, .div lhsp rhsp⟩
  | .divD _ _ => some ⟨n.fl, .divD lhsp rhsp⟩
  | .divS _ _ => some ⟨n.fl, .divS lhsp rhsp⟩
  | .eqWild _ _ => some ⟨n.fl, .eqWild lhsp rhsp⟩
  | .fGetS _ _ => some ⟨n.fl, .fGetS lhsp rhsp⟩
  | .fUngetC _ _ => some ⟨n.fl, .fUngetC lhsp rhsp⟩
  | .getcN _ _ => some ⟨n.fl, .getcN lhsp rhsp⟩
  | .getcRefN _ _ => some ⟨n.fl, .getcRefN lhsp rhsp⟩
  | .gt _ _ => some ⟨n.fl, .gt lhsp rhsp⟩
  | .gtD _ _ => some ⟨n.fl, .gtD lhsp rhsp⟩
  | .gtN _ _ => some ⟨n.fl, .gtN lhsp rhsp⟩
  | .gtS _ _ => some ⟨n.fl, .gtS lhsp rhsp⟩
  | .gte _ _ => some ⟨n.fl, .gte lhsp rhsp⟩
  | .gteD _ _ => some ⟨n.fl, .gteD lhsp rhsp⟩
  | .gteN _ _ => some ⟨n.fl, .gteN lhsp rhsp⟩
  | .gteS _ _ => some ⟨n.fl, .gteS lhsp rhsp⟩
  | .logAnd _ _ => some ⟨n.fl, .logAnd lhsp rhsp⟩
  | .logIf _ _ => some ⟨n.fl, .logIf lhsp rhsp⟩
  | .logOr _ _ _ => some ⟨n.fl, .logOr lhsp rhsp false⟩
  | .lt _ _ => some ⟨n.fl, .lt lhsp rhsp⟩
  | .ltD _ _ => some ⟨n.fl, .ltD lhsp rhsp⟩
  | .ltN _ _ => some ⟨n.fl, .ltN lhsp rhsp⟩
  | .ltS _ _ => some ⟨n.fl, .ltS lhsp rhsp⟩
  | .lte _ _ => some ⟨n.fl, .lte lhsp rhsp⟩
  | .lteD _ _ => some ⟨n.fl, .lteD lhsp rhsp⟩
  | .lteN _ _ => some ⟨n.fl, .lteN lhsp rhsp⟩
  | .lteS _ _ => some ⟨n.fl, .lteS lhsp rhsp⟩
  | .modDiv _ _ => some ⟨n.fl, .modDiv lhsp rhsp⟩
  | .modDivS _ _ => some ⟨n.fl, .modDivS lhsp rhsp⟩
  | .neqWild _ _ => some ⟨n.fl, .neqWild lhsp rhsp⟩
  | .pow _ _ => some ⟨n.fl, .pow lhsp rhsp⟩
  | .powD _ _ => some ⟨n.fl, .powD lhsp rhsp⟩
  | .powSS _ _ => some ⟨n.fl, .powSS lhsp rhsp⟩
  | .powSU _ _ => some ⟨n.fl, .powSU lhsp rhsp⟩
  | .powUS _ _ => some ⟨n.fl, .powUS lhsp rhsp⟩
  | .replicate _ _ => some ⟨n.fl, .replicate lhsp rhsp⟩
  | .replicateN _ _ => some ⟨n.fl, .replicateN lhsp rhsp⟩
  | .shiftL _ _ => some ⟨n.fl, .shiftL lhsp rhsp⟩
  | .shiftR _ _ => some ⟨n.fl, .shiftR lhsp rhsp⟩
  | .shiftRS _ _ => some ⟨n.fl, .shiftRS lhsp rhsp⟩
  | .sub _ _ => some ⟨n.fl, .sub lhsp rhsp⟩
  | .subD _ _ => some ⟨n.fl, .subD lhsp rhsp⟩
  | .uRandomRange _ _ => some ⟨n.fl, .uRandomRange lhsp rhsp⟩
  | .eq _ _ => some ⟨n.fl, .eq lhsp rhsp⟩
  | .eqCase _ _ => some ⟨n.fl, .eqCase lhsp rhsp⟩
  | .eqD _ _ => some ⟨n.fl, .eqD lhsp rhsp⟩
  | .eqN _ _ => some ⟨n.fl, .eqN lhsp rhsp⟩
  | .logEq _ _ => some ⟨n.fl, .logEq lhsp rhsp⟩
  | .neq _ _ => some ⟨n.fl, .neq lhsp rhsp⟩
  | .neqCase _ _ => some ⟨n.fl, .neqCase lhsp rhsp⟩
  | .neqD _ _ => some ⟨n.fl, .neqD lhsp rhsp⟩
  | .neqN _ _ => some ⟨n.fl, .neqN lhsp rhsp⟩
  | .add _ _ => some ⟨n.fl, .add lhsp rhsp⟩
  | .addD _ _ => some ⟨n.fl, .addD lhsp rhsp⟩
  | .and _ _ => some ⟨n.fl, .and lhsp rhsp⟩
  | .mul _ _ => some ⟨n.fl, .mul lhsp rhsp⟩
  | .mulD _ _ => some ⟨n.fl, .mulD lhsp rhsp⟩
  | .mulS _ _ => some ⟨n.fl, .mulS lhsp rhsp⟩
  | .or _ _ => some ⟨n.fl, .or lhsp rhsp⟩
  | .xor _ _ => some ⟨n.fl, .xor lhsp rhsp⟩
  | .arraySel _ _ => some ⟨n.fl, .arraySel lhsp rhsp⟩
  | .assocSel _ _ => some ⟨n.fl, .assocSel lhsp rhsp⟩
  | .wildcardSel _ _ => some ⟨n.fl, .wildcardSel lhsp rhsp⟩
  | .wordSel _ _ => some ⟨n.fl, .wordSel lhsp rhsp⟩
  | .streamL _ _ => some ⟨n.fl, .streamL lhsp rhsp⟩
  | .streamR _ _ => some ⟨n.fl, .streamR lhsp rhsp⟩
  | .atan2D _ _ => some ⟨n.fl, .atan2D lhsp rhsp⟩
  | .hypotD _ _ => some ⟨n.fl, .hypotD lhsp rhsp⟩
  | _ => none

/-- A manually reconstructed twin of a binary node `n`: a fresh node of the
same concrete kind, with operands `lhsp`/`rhsp`, source location `fl`, and
the same node-local payload as `n` (for `AstCompareNN` the `m_ignoreCase`
flag, for `AstLogOr` the `m_sideEffect` flag).  This is the comparison
partner spec section 8 pits against the result of `cloneType`. -/
def reconstructBin (n : MathNode) (fl : FileLine) (lhsp rhsp : Nat) : Option MathNode :=
  match n.op with
  | .bufIf1 _ _ => some ⟨fl, .bufIf1 lhsp rhsp⟩
  | .castDynamic _ _ => some ⟨fl, .castDynamic lhsp rhsp⟩
  | .compareNN _ _ ic => some ⟨fl, .compareNN lhsp rhsp ic⟩
  | .concat _ _ => some ⟨fl, .concat lhsp rhsp⟩
  | .concatN _ _ => some ⟨fl, .concatN lhsp rhsp⟩
  | .div _ _ => some ⟨fl, .div lhsp rhsp⟩
  | .divD _ _ => some ⟨fl, .divD lhsp rhsp⟩
  | .divS _ _ => some ⟨fl, .divS lhsp rhsp⟩
  | .eqWild _ _ => some ⟨fl, .eqWild lhsp rhsp⟩
  | .fGetS _ _ => some ⟨fl, .fGetS lhsp rhsp⟩
  | .fUngetC _ _ => some ⟨fl, .fUngetC lhsp rhsp⟩
  | .getcN _ _ => some ⟨fl, .getcN lhsp rhsp⟩
  | .getcRefN _ _ => some ⟨fl, .getcRefN lhsp rhsp⟩
  | .gt _ _ => some ⟨fl, .gt lhsp rhsp⟩
  | .gtD _ _ => some ⟨fl, .gtD lhsp rhsp⟩
  | .gtN _ _ => some ⟨fl, .gtN lhsp rhsp⟩
  | .gtS _ _ => some ⟨fl, .gtS lhsp rhsp⟩
  | .gte _ _ => some ⟨fl, .gte lhsp rhsp⟩
  | .gteD _ _ => some ⟨fl, .gteD lhsp rhsp⟩
  | .gteN _ _ => some ⟨fl, .gteN lhsp rhsp⟩
  | .gteS _ _ => some ⟨fl, .gteS lhsp rhsp⟩
  | .logAnd _ _ => some ⟨fl, .logAnd lhsp rhsp⟩
  | .logIf _ _ => some ⟨fl, .logIf lhsp rhsp⟩
  | .logOr _ _ se => some ⟨fl, .logOr lhsp rhsp se⟩
  | .lt _ _ => some ⟨fl, .lt lhsp rhsp⟩
  | .ltD _ _ => some ⟨fl, .ltD lhsp rhsp⟩
  | .ltN _ _ => some ⟨fl, .ltN lhsp rhsp⟩
  | .ltS _ _ => some ⟨fl, .ltS lhsp rhsp⟩
  | .lte _ _ => some ⟨fl, .lte lhsp rhsp⟩
  | .lteD _ _ => some ⟨fl, .lteD lhsp rhsp⟩
  | .lteN _ _ => some ⟨fl, .lteN lhsp rhsp⟩
  | .lteS _ _ => some ⟨fl, .lteS lhsp rhsp⟩
  | .modDiv _ _ => some ⟨fl, .modDiv lhsp rhsp⟩
  | .modDivS _ _ => some ⟨fl, .modDivS lhsp rhsp⟩
  | .neqWild _ _ => some ⟨fl, .neqWild lhsp rhsp⟩
  | .pow _ _ => some ⟨fl, .pow lhsp rhsp⟩
  | .powD _ _ => some ⟨fl, .powD lhsp rhsp⟩
  | .powSS _ _ => some ⟨fl, .powSS lhsp rhsp⟩
  | .powSU _ _ => some ⟨fl, .powSU lhsp rhsp⟩
  | .powUS _ _ => some ⟨fl, .powUS lhsp rhsp⟩
  | .replicate _ _ => some ⟨fl, .replicate lhsp rhsp⟩
  | .replicateN _ _ => some ⟨fl, .replicateN lhsp rhsp⟩
  | .shiftL _ _ => some ⟨fl, .shiftL lhsp rhsp⟩
  | .shiftR _ _ => some ⟨fl, .shiftR lhsp rhsp⟩
  | .shiftRS _ _ => some ⟨fl, .shiftRS lhsp rhsp⟩
  | .sub _ _ => some ⟨fl, .sub lhsp rhsp⟩
  | .subD _ _ => some ⟨fl, .subD lhsp rhsp⟩
  | .uRandomRange _ _ => some ⟨fl, .uRandomRange lhsp rhsp⟩
  | .eq _ _ => some ⟨fl, .eq lhsp rhsp⟩
  | .eqCase _ _ => some ⟨fl, .eqCase lhsp rhsp⟩
  | .eqD _ _ => some ⟨fl, .eqD lhsp rhsp⟩
  | .eqN _ _ => some ⟨fl, .eqN lhsp rhsp⟩
  | .logEq _ _ => some ⟨fl, .logEq lhsp rhsp⟩
  | .neq _ _ => some ⟨fl, .neq lhsp rhsp⟩
  | .neqCase _ _ => some ⟨fl, .neqCase lhsp rhsp⟩
  | .neqD _ _ => some ⟨fl, .neqD lhsp rhsp⟩
  | .neqN _ _ => some ⟨fl, .neqN lhsp rhsp⟩
  | .add _ _ => some ⟨fl, .add lhsp rhsp⟩
  | .addD _ _ => some ⟨fl, .addD lhsp rhsp⟩
  | .and _ _ => some ⟨fl, .and lhsp rhsp⟩
  | .mul _ _ => some ⟨fl, .mul lhsp rhsp⟩
  | .mulD _ _ => some ⟨fl, .mulD lhsp rhsp⟩
  | .mulS _ _ => some ⟨fl, .mulS lhsp rhsp⟩
  | .or _ _ => some ⟨fl, .or lhsp rhsp⟩
  | .xor _ _ => some ⟨fl, .xor lhsp rhsp⟩
  | .arraySel _ _ => some ⟨fl, .arraySel lhsp rhsp⟩
  | .assocSel _ _ => some ⟨fl, .assocSel lhsp rhsp⟩
  | .wildcardSel _ _ => some ⟨fl, .wildcardSel lhsp rhsp⟩
  | .wordSel _ _ => some ⟨fl, .wordSel lhsp rhsp⟩
  | .streamL _ _ => some ⟨fl, .streamL lhsp rhsp⟩
  | .streamR _ _ => some ⟨fl, .streamR lhsp rhsp⟩
  | .atan2D _ _ => some ⟨fl, .atan2D lhsp rhsp⟩
  | .hypotD _ _ => some ⟨fl, .hypotD lhsp rhsp⟩
  | _ => none

/-- `cloneType(condp, thenp, elsep)`: the three-operand clone contract is
declared pure-virtual only in `AstNodeCond` and overridden only by
`AstCond` and `AstCondBound`; no other ternary kind has it. -/
def cloneTypeTriop (n : MathNode) (condp thenp elsep : Nat) : Option MathNode :=
  match n.op with
  | .cond _ _ _ => some ⟨n.fl, .cond condp thenp elsep⟩
  | .condBound _ _ _ => some ⟨n.fl, .condBound condp thenp elsep⟩
  | _ => none

/-- `AstAdd::numberOperate`: `out.opAdd(lhs, rhs)`. -/
def AstAdd.numberOperate (out lhs rhs : V3Number) : NumberResult :=
  .value (V3Number.opAdd out lhs rhs)

/-- `AstSub::numberOperate`: `out.opSub(lhs, rhs)`. -/
def AstSub.numberOperate (out lhs rhs : V3Number) : NumberResult :=
  .value (V3Number.opSub out lhs rhs)

/-- `AstMul::numberOperate`: `out.opMul(lhs, rhs)`. -/
def AstMul.numberOperate (out lhs rhs : V3Number) : NumberResult :=
  .value (V3Number.opMul out lhs rhs)

/-- `AstMulS::numberOperate`: `out.opMulS(lhs, rhs)`. -/
def AstMulS.numberOperate (out lhs rhs : V3Number) : NumberResult :=
  .value (V3Number.opMulS out lhs rhs)

/-- `AstDiv::numberOperate`: `out.opDiv(lhs, rhs)`. -/
def AstDiv.numberOperate (out lhs rhs : V3Number) : NumberResult :=
  .value (V3Number.opDiv out lhs rhs)

/-- `AstDivS::numberOperate`: `out.opDivS(lhs, rhs)`. -/
def AstDivS.numberOperate (out lhs rhs : V3Number) : NumberResult :=
  .value (V3Number.opDivS out lhs rhs)

/-- `AstModDiv::numberOperate`: `out.opModDiv(lhs, rhs)`. -/
def AstModDiv.numberOperate (out lhs rhs : V3Number) : NumberResult :=
  .value (V3Number.opModDiv out lhs rhs)

/-- `AstModDivS::numberOperate`: `out.opModDivS(lhs, rhs)`. -/
def AstModDivS.numberOperate (out lhs rhs : V3Number) : NumberResult :=
  .value (V3Number.opModDivS out lhs rhs)

/-- `AstPow::numberOperate`: `out.opPow(lhs, rhs)`. -/
def AstPow.numberOperate (out lhs rhs : V3Number) : NumberResult :=
  .value (V3Number.opPow out lhs rhs)

/-- `AstPostAdd::numberOperate`: `V3ERROR_NA` ("Need to modify lhs"). -/
def AstPostAdd.numberOperate (out lhs rhs ths : V3Number) : NumberResult :=
  .errorNA

/-- `AstPostSub::numberOperate`: `V3ERROR_NA` ("Need to modify lhs"). -/
def AstPostSub.numberOperate (out lhs rhs ths : V3Number) : NumberResult :=
  .errorNA

/-- `AstPreAdd::numberOperate`: `V3ERROR_NA` ("Need to modify lhs"). -/
def AstPreAdd.numberOperate (out lhs rhs ths : V3Number) : NumberResult :=
  .errorNA

/-- `AstPreSub::numberOperate`: `V3ERROR_NA` ("Need to modify lhs"). -/
def AstPreSub.numberOperate (out lhs rhs ths : V3Number) : NumberResult :=
  .errorNA

/-- `AstURandomRange::numberOperate`: `V3ERROR_NA`. -/
def AstURandomRange.numberOperate (out lhs rhs : V3Number) : NumberResult :=
  .errorNA

/-- Which of the three optimization predicates a concrete class overrides,
and with what constant: `some b` means the class body contains an override
returning `b`, `none` means the class inherits the base-class behaviour
(the `AstNode` defaults live outside this file). -/
structure OptOverrides where
  isGateOptimizable : Option Bool
  isPredictOptimizable : Option Bool
  isPure : Option Bool
deriving DecidableEq, Repr

/-- `AstFRead` overrides: gate `false`, predict `false`, pure `false`. -/
def AstFRead.overrides : OptOverrides := ⟨some false, some false, some false⟩

/-- `AstFRewind` overrides: gate `false`, predict `false`, pure `false`. -/
def AstFRewind.overrides : OptOverrides := ⟨some false, some false, some false⟩

/-- `AstFScanF` overrides: gate `false`, predict `false`, pure `false`. -/
def AstFScanF.overrides : OptOverrides := ⟨some false, some false, some false⟩

/-- `AstFSeek` overrides: gate `false`, predict `false`, pure `false`. -/
def AstFSeek.overrides : OptOverrides := ⟨some false, some false, some false⟩

/-- `AstFTell` overrides: gate `false`, predict `false`, pure `false`. -/
def AstFTell.overrides : OptOverrides := ⟨some false, some false, some false⟩

/-- `AstSScanF` overrides: gate `false`, predict `false`, pure `false`. -/
def AstSScanF.overrides : OptOverrides := ⟨some false, some false, some false⟩

/-- `AstSystemF` overrides: gate `false`, predict `false`, pure `false`. -/
def AstSystemF.overrides : OptOverrides := ⟨some false, some false, some false⟩

/-- `AstRand` overrides `isGateOptimizable` and `isPredictOptimizable` to
`false` but does not override `isPure` (lines 1032-1074 of the source). -/
def AstRand.overrides : OptOverrides := ⟨some false, some false, none⟩

/-- `AstURandomRange` overrides gate and predict to `false`; no `isPure`
override. -/
def AstURandomRange.overrides : OptOverrides := ⟨some false, some false, none⟩

/-- `AstTime` overrides gate and predict to `false`; no `isPure`
override. -/
def AstTime.overrides : OptOverrides := ⟨some false, some false, none⟩

/-- `AstTimeD` overrides gate and predict to `false`; no `isPure`
override. -/
def AstTimeD.overrides : OptOverrides := ⟨some false, some false, none⟩

/-- `AstPostAdd` overrides none of the three predicates (lines 3188-3212 of
the source contain no `isGateOptimizable`, `isPredictOptimizable` or
`isPure` member). -/
def AstPostAdd.overrides : OptOverrides := ⟨none, none, none⟩

/-- `AstPostSub` overrides none of the three predicates. -/
def AstPostSub.overrides : OptOverrides := ⟨none, none, none⟩

/-- `AstPreAdd` overrides none of the three predicates. -/
def AstPreAdd.overrides : OptOverrides := ⟨none, none, none⟩

/-- `AstPreSub` overrides none of the three predicates. -/
def AstPreSub.overrides : OptOverrides := ⟨none, none, none⟩

/-- `AstFGetS` overrides none of the three predicates (lines 1562-1586 of
the source contain no `isGateOptimizable`, `isPredictOptimizable` or
`isPure` member). -/
def AstFGetS.overrides : OptOverrides := ⟨none, none, none⟩

/-- `AstFUngetC` overrides only `isPure` (to `false`). -/
def AstFUngetC.overrides : OptOverrides := ⟨none, none, some false⟩

/-- `AstFEof` overrides only `isPure` (to `false`). -/
def AstFEof.overrides : OptOverrides := ⟨none, none, some false⟩

/-- `AstFGetC` overrides only `isPure` (to `false`). -/
def AstFGetC.overrides : OptOverrides := ⟨none, none, some false⟩

/-- `AstFError` overrides only `isPure` (to `false`). -/
def AstFError.overrides : OptOverrides := ⟨none, none, some false⟩

/-- `AstTestPlusArgs` overrides gate and predict to `false`; no `isPure`
override. -/
def AstTestPlusArgs.overrides : OptOverrides := ⟨some false, some false, none⟩

/-- `AstUCFunc` overrides all three predicates to `false` (and also
`isSubstOptimizable`, outside this triple). -/
def AstUCFunc.overrides : OptOverrides := ⟨some false, some false, some false⟩

/-- `AstValuePlusArgs::isGateOptimizable`: `return false`. -/
def AstValuePlusArgs.isGateOptimizable : Bool := false

/-- `AstValuePlusArgs::isPredictOptimizable`: `return false`. -/
def AstValuePlusArgs.isPredictOptimizable : Bool := false

/-- `AstValuePlusArgs::isPure`: `return !outp();` - not a constant: pure
exactly when the output-operand pointer is null. -/
def AstValuePlusArgs.isPure (outp : Option Nat) : Bool := outp.isNone

/-- `AstCMath::isGateOptimizable`: `return m_pure;` - the member, which the
expression-list constructor initialises to `false`. -/
def AstCMath.isGateOptimizable (pure : Bool) : Bool := pure

/-- `AstCMath::isPredictOptimizable`: `return m_pure;`. -/
def AstCMath.isPredictOptimizable (pure : Bool) : Bool := pure

/-- `AstFGetS::numberOperate`: `V3ERROR_NA`. -/
def AstFGetS.numberOperate (out lhs rhs : V3Number) : NumberResult :=
  .errorNA

/-- `AstFUngetC::numberOperate`: `V3ERROR_NA`. -/
def AstFUngetC.numberOperate (out lhs rhs : V3Number) : NumberResult :=
  .errorNA

/-- `AstFEof::numberOperate`: `V3ERROR_NA`. -/
def AstFEof.numberOperate (out lhs : V3Number) : NumberResult :=
  .errorNA

/-- `AstFGetC::numberOperate`: `V3ERROR_NA`. -/
def AstFGetC.numberOperate (out lhs : V3Number) : NumberResult :=
  .errorNA

/-- `AstConsAssoc::emitC`: `V3ERROR_NA_RETURN("")`. -/
def AstConsAssoc.emitC : EmitResult := .errorNA

/-- `AstConsAssoc::emitVerilog`: the literal template for an empty
aggregate literal. -/
def AstConsAssoc.emitVerilog : EmitResult := .text "\x27\x7b\x7d"

/-- `AstConsDynArray::emitC`: `V3ERROR_NA_RETURN("")`. -/
def AstConsDynArray.emitC : EmitResult := .errorNA

/-- `AstConsDynArray::emitVerilog`. -/
def AstConsDynArray.emitVerilog : EmitResult := .text "\x27\x7b%l, %r\x7d"

/-- `AstConsQueue::emitC`: `V3ERROR_NA_RETURN("")`. -/
def AstConsQueue.emitC : EmitResult := .errorNA

/-- `AstConsQueue::emitVerilog`. -/
def AstConsQueue.emitVerilog : EmitResult := .text "\x27\x7b%l, %r\x7d"

/-- `AstConsWildcard::emitC`: `V3ERROR_NA_RETURN("")`. -/
def AstConsWildcard.emitC : EmitResult := .errorNA

/-- `AstConsWildcard::emitVerilog`. -/
def AstConsWildcard.emitVerilog : EmitResult := .text "\x27\x7b\x7d"

/-- `AstVarRef::emitVerilog`: `V3ERROR_NA_RETURN("")`. -/
def AstVarRef.emitVerilog : EmitResult := .errorNA

/-- `AstVarRef::emitC`: `V3ERROR_NA_RETURN("")`. -/
def AstVarRef.emitC : EmitResult := .errorNA

/-- `AstVarXRef::emitVerilog`: `V3ERROR_NA_RETURN("")`. -/
def AstVarXRef.emitVerilog : EmitResult := .errorNA

/-- `AstVarXRef::emitC`: `V3ERROR_NA_RETURN("")`. -/
def AstVarXRef.emitC : EmitResult := .errorNA

/-- Lifecycle phase of a node, per spec section 4.6: Constructed ->
TypeResolved -> FoldedOrKept -> Emitted. -/
inductive LifePhase where
  | constructed
  | typeResolved
  | foldedOrKept
  | emitted
deriving DecidableEq, Repr

/-- A node's lifecycle-relevant state: its phase and its declared data
type. -/
structure LifeNode where
  phase : LifePhase
  dtype : DType
deriving DecidableEq, Repr

/-- Translated from the `AstNodeSystemBiop` constructor: it calls
`dtypeSetDouble()`. -/
def AstNodeSystemBiop.constructDtype : DType := .double

/-- Translated from the `AstNodeSystemUniop` constructor: it calls
`dtypeSetDouble()`. -/
def AstNodeSystemUniop.constructDtype : DType := .double

/-- Lifecycle state of a freshly constructed system-math node of kind `k`:
phase `constructed`, data type as set by the `AstNodeSystemBiop` or
`AstNodeSystemUniop` base-class constructor. -/
def systemConstruct (k : NodeKind) : LifeNode :=
  ⟨.constructed,
    if category k = .binary then AstNodeSystemBiop.constructDtype
    else AstNodeSystemUniop.constructDtype⟩

/-- Modelled from the spec: the externally driven lifecycle transitions of
a node (section 4.6), parameterised by whether the node's flavor forces
its data type.  The width pass writes the resolved data type back
(section 6) but "skip[s] normal bit-width propagation" for flavor-forced
nodes (section 4.2), so for those the resolve step leaves the data type
unchanged; folding and emission do not touch the data type. -/
inductive LifeStep (flavorForced : Bool) : LifeNode → LifeNode → Prop where
  | resolve (d d' : DType) (h : flavorForced = true → d' = d) :
      LifeStep flavorForced ⟨.constructed, d⟩ ⟨.typeResolved, d'⟩
  | fold (d : DType) : LifeStep flavorForced ⟨.typeResolved, d⟩ ⟨.foldedOrKept, d⟩
  | emit (d : DType) : LifeStep flavorForced ⟨.foldedOrKept, d⟩ ⟨.emitted, d⟩

/-- Whether a render result is ordinary text (as opposed to the fatal
not-applicable marker). -/
def EmitResult.isText : EmitResult → Bool
  | .text _ => true
  | .errorNA => false

/-- C1: in the source, `AstCompareNN` does not override `same`, so it
inherits `AstNodeBiop::same`, which returns `true` unconditionally: two
string-comparison nodes with identical operands but opposite
`m_ignoreCase` flags are reported `same`, although the flag changes
`numberOperate`, `emitVerilog` and `emitC`.  This theorem evaluates the
embedded `same` at that failing input. -/
theorem claim_C1_compareNN_same_ignores_case (fl : FileLine) (l r : Nat) :
    same ⟨fl, .compareNN l r true⟩ ⟨fl, .compareNN l r false⟩ = true := rfl

/-- C2 counterexample: `AstNullCheck::same` is
`fileline() == samep->fileline()`, so two null-check nodes that are
identical except for their source locations are not `same`, while the
same two nodes with equal locations are - `same` does depend on source
location for this kind. -/
theorem claim_C2_nullCheck_same_reads_fileline :
    same ⟨⟨0⟩, .nullCheck 7⟩ ⟨⟨1⟩, .nullCheck 7⟩ = false
    ∧ same ⟨⟨0⟩, .nullCheck 7⟩ ⟨⟨0⟩, .nullCheck 7⟩ = true :=
  ⟨rfl, rfl⟩

/-- C2 as amended: for every concrete expression-node kind other than
`AstNullCheck`, the result of `same` does not depend on either node's
source location. -/
theorem claim_C2_same_ignores_fileline_except_nullCheck
    (op bop : MathOp) (fl1 fl2 fl3 fl4 : FileLine) (h : kindOf op ≠ .nullCheck) :
    same ⟨fl1, op⟩ ⟨fl2, bop⟩ = same ⟨fl3, op⟩ ⟨fl4, bop⟩ := by
  cases op <;> first | rfl | exact absurd rfl h

/-- C2 witness: the amended theorem applied to two `AstAdd` nodes at four
distinct source locations. -/
theorem claim_C2_witness :
    same ⟨⟨0⟩, .add 1 2⟩ ⟨⟨1⟩, .add 1 2⟩ = same ⟨⟨2⟩, .add 1 2⟩ ⟨⟨3⟩, .add 1 2⟩ :=
  claim_C2_same_ignores_fileline_except_nullCheck (.add 1 2) (.add 1 2)
    ⟨0⟩ ⟨1⟩ ⟨2⟩ ⟨3⟩ (by decide)

/-- C3: `same(n, n)` is `true` for every concrete expression-node kind,
including the kinds with node-local payload (`AstConst`'s literal value,
`AstFScanF`/`AstSScanF` text, `AstScopeName` flags, `AstLogOr`'s side
effect flag, `AstCCast`'s size, `AstNullCheck`'s file line, the variable
references' external targets). -/
theorem claim_C3_same_reflexive (n : MathNode) : same n n = true := by
  obtain ⟨fl, op⟩ := n
  cases op <;> simp [same, V3Number.isCaseEq]

/-- C4 counterexample: `AstPostAdd` is a concrete ternary kind
(`AstNodeTriop` subclass) but implements neither the two-operand nor the
three-operand `cloneType`: only the `AstNodeCond` family declares the
ternary clone contract. -/
theorem claim_C4_postAdd_lacks_cloneType :
    category (kindOf (.postAdd 0 1 2)) = Category.ternary
    ∧ cloneTypeTriop ⟨⟨0⟩, .postAdd 0 1 2⟩ 3 4 5 = none
    ∧ cloneType ⟨⟨0⟩, .postAdd 0 1 2⟩ 3 4 = none :=
  ⟨rfl, rfl, rfl⟩

/-- C4 as amended: every concrete binary kind implements
`cloneType(lhsp, rhsp)` and it reconstructs a node of the same concrete
kind; among the ternary kinds exactly the `AstNodeCond` subclasses
(`AstCond`, `AstCondBound`) implement `cloneType(condp, thenp, elsep)`,
likewise kind-preserving. -/
theorem claim_C4_cloneType_binary_and_cond (n : MathNode) (a b c : Nat) :
    (category (kindOf n.op) = Category.binary →
      ∃ m, cloneType n a b = some m ∧ kindOf m.op = kindOf n.op)
    ∧ (isCondFamily (kindOf n.op) = true →
      ∃ m, cloneTypeTriop n a b c = some m ∧ kindOf m.op = kindOf n.op) := by
  obtain ⟨fl, op⟩ := n
  cases op <;>
    first
      | exact And.intro (fun h => ⟨_, And.intro rfl rfl⟩) (fun h => nomatch h)
      | exact And.intro (fun h => nomatch h) (fun h => ⟨_, And.intro rfl rfl⟩)
      | exact And.intro (fun h => nomatch h) (fun h => nomatch h)

/-- C4 witness: the amended theorem applied to a concrete `AstAdd` node
(binary part) and a concrete `AstCond` node (ternary part). -/
theorem claim_C4_witness :
    (∃ m, cloneType ⟨⟨0⟩, .add 1 2⟩ 3 4 = some m ∧ kindOf m.op = kindOf (.add 1 2))
    ∧ (∃ m, cloneTypeTriop ⟨⟨0⟩, .cond 1 2 3⟩ 4 5 6 = some m
        ∧ kindOf m.op = kindOf (.cond 1 2 3)) :=
  ⟨(claim_C4_cloneType_binary_and_cond ⟨⟨0⟩, .add 1 2⟩ 3 4 5).1 (by decide),
   (claim_C4_cloneType_binary_and_cond ⟨⟨0⟩, .cond 1 2 3⟩ 4 5 6).2 (by decide)⟩

/-- C5: for the binary integer arithmetic kinds, the fold hook
(`numberOperate`) on two literal operands produces the mathematical
result reduced modulo `2 ^ w` (`w` the accumulator's width, which the
folding pass sets to the node's width); division/modulus by zero
produces the all-ones sentinel.  In particular the 4-bit add of 12 and 7
yields 3 at width 4. -/
theorem claim_C5_fold_mod_pow2 :
    (∀ out lhs rhs : V3Number, AstAdd.numberOperate out lhs rhs =
      .value ⟨out.width, (lhs.value + rhs.value) % 2 ^ out.width⟩)
    ∧ (∀ out lhs rhs : V3Number, AstSub.numberOperate out lhs rhs =
      .value ⟨out.width, (((lhs.value : Int) - (rhs.value : Int)) % (2 ^ out.width : Int)).toNat⟩)
    ∧ (∀ out lhs rhs : V3Number, AstMul.numberOperate out lhs rhs =
      .value ⟨out.width, (lhs.value * rhs.value) % 2 ^ out.width⟩)
    ∧ (∀ out lhs rhs : V3Number, AstMulS.numberOperate out lhs rhs =
      .value ⟨out.width, ((lhs.toSigned * rhs.toSigned) % (2 ^ out.width : Int)).toNat⟩)
    ∧ (∀ out lhs rhs : V3Number, rhs.value ≠ 0 → AstDiv.numberOperate out lhs rhs =
      .value ⟨out.width, (lhs.value / rhs.value) % 2 ^ out.width⟩)
    ∧ (∀ (out lhs : V3Number) (w : Nat), AstDiv.numberOperate out lhs ⟨w, 0⟩ =
      .value (V3Number.allOnes out.width))
    ∧ (∀ out lhs rhs : V3Number, rhs.value ≠ 0 → AstDivS.numberOperate out lhs rhs =
      .value ⟨out.width, ((lhs.toSigned.tdiv rhs.toSigned) % (2 ^ out.width : Int)).toNat⟩)
    ∧ (∀ out lhs rhs : V3Number, rhs.value ≠ 0 → AstModDiv.numberOperate out lhs rhs =
      .value ⟨out.width, (lhs.value % rhs.value) % 2 ^ out.width⟩)
    ∧ (∀ out lhs rhs : V3Number, rhs.value ≠ 0 → AstModDivS.numberOperate out lhs rhs =
      .value ⟨out.width, ((lhs.toSigned.tmod rhs.toSigned) % (2 ^ out.width : Int)).toNat⟩)
    ∧ (∀ out lhs rhs : V3Number, AstPow.numberOperate out lhs rhs =
      .value ⟨out.width, (lhs.value ^ rhs.value) % 2 ^ out.width⟩)
    ∧ AstAdd.numberOperate ⟨4, 0⟩ ⟨4, 12⟩ ⟨4, 7⟩ = .value ⟨4, 3⟩ := by
  refine ⟨fun _ _ _ => rfl, fun _ _ _ => rfl, fun _ _ _ => rfl, fun _ _ _ => rfl,
    ?_, ?_, ?_, ?_, ?_, fun _ _ _ => rfl, by decide⟩
  · intro out lhs rhs h
    unfold AstDiv.numberOperate V3Number.opDiv
    rw [if_neg h]
  · intro out lhs w
    unfold AstDiv.numberOperate V3Number.opDiv
    rw [if_pos rfl]
  · intro out lhs rhs h
    unfold AstDivS.numberOperate V3Number.opDivS
    rw [if_neg h]
  · intro out lhs rhs h
    unfold AstModDiv.numberOperate V3Number.opModDiv
    rw [if_neg h]
  · intro out lhs rhs h
    unfold AstModDivS.numberOperate V3Number.opModDivS
    rw [if_neg h]

/-- C5 witness: the quotient clause applied to a 4-bit division of 12 by
the non-zero literal 5. -/
theorem claim_C5_witness :
    AstDiv.numberOperate ⟨4, 0⟩ ⟨4, 12⟩ ⟨4, 5⟩ = .value ⟨4, 2⟩ :=
  claim_C5_fold_mod_pow2.2.2.2.2.1 ⟨4, 0⟩ ⟨4, 12⟩ ⟨4, 5⟩ (by decide)

/-- C6 counterexample: for an `AstLogOr` node whose `m_sideEffect` flag is
set, `cloneType` produces a node with the flag cleared (the plain
constructor leaves the in-class initialiser `false`), so comparing the
clone via `same` against a manually reconstructed node of the same kind,
operands and node-local payload yields `false`. -/
theorem claim_C6_logOr_clone_not_same :
    cloneType ⟨⟨0⟩, .logOr 0 1 true⟩ 2 3 = some ⟨⟨0⟩, .logOr 2 3 false⟩
    ∧ reconstructBin ⟨⟨0⟩, .logOr 0 1 true⟩ ⟨0⟩ 2 3 = some ⟨⟨0⟩, .logOr 2 3 true⟩
    ∧ same ⟨⟨0⟩, .logOr 2 3 false⟩ ⟨⟨0⟩, .logOr 2 3 true⟩ = false :=
  ⟨rfl, rfl, rfl⟩

/-- C6 as amended: for every concrete binary kind, the result of
`cloneType(a, b)` is `same` as a freshly reconstructed node of the same
kind, operands and node-local payload - except for an `AstLogOr` whose
`m_sideEffect` flag is set, which `cloneType` does not preserve. -/
theorem claim_C6_clone_same_reconstructed
    (n : MathNode) (fl : FileLine) (a b : Nat) (c f : MathNode)
    (h : ∀ x y, n.op ≠ .logOr x y true)
    (hc : cloneType n a b = some c) (hf : reconstructBin n fl a b = some f) :
    same c f = true := by
  obtain ⟨nfl, op⟩ := n
  cases op <;>
    first
      | (cases hc; cases hf; rfl)
      | (rename_i x y se
         cases hc; cases hf
         cases se
         · rfl
         · exact absurd rfl (h x y))
      | exact absurd hc (by simp [cloneType])

/-- C6 witness: the amended theorem applied to a concrete `AstAdd` node,
its clone onto operands 3 and 4, and the matching reconstruction. -/
theorem claim_C6_witness :
    same ⟨⟨0⟩, .add 3 4⟩ ⟨⟨1⟩, .add 3 4⟩ = true :=
  claim_C6_clone_same_reconstructed ⟨⟨0⟩, .add 1 2⟩ ⟨1⟩ 3 4 ⟨⟨0⟩, .add 3 4⟩ ⟨⟨1⟩, .add 3 4⟩
    (fun x y hh => nomatch hh) rfl rfl

/-- C7 counterexample: the increment/decrement kind `AstPostAdd` and the
file-read kind `AstFGetS` override none of `isGateOptimizable` /
`isPredictOptimizable` / `isPure`, and the random and time kinds
`AstRand` / `AstTime` do not override `isPure` either - contrary to the
claim that every such kind reports all of them `false`. -/
theorem claim_C7_postAdd_rand_not_marked :
    AstPostAdd.overrides.isPure = none
    ∧ AstPostAdd.overrides.isGateOptimizable = none
    ∧ AstPostAdd.overrides.isPredictOptimizable = none
    ∧ AstFGetS.overrides.isPure = none
    ∧ AstFGetS.overrides.isGateOptimizable = none
    ∧ AstFGetS.overrides.isPredictOptimizable = none
    ∧ AstRand.overrides.isPure = none
    ∧ AstTime.overrides.isPure = none :=
  ⟨rfl, rfl, rfl, rfl, rfl, rfl, rfl, rfl⟩

/-- C7 as amended, kind by kind over the non-foldable / order-dependent /
I/O catalogue of this file: `AstFRead`, `AstFRewind`, `AstFScanF`,
`AstFSeek`, `AstFTell`, `AstSScanF`, `AstSystemF` and `AstUCFunc`
override all three optimization predicates to `false`; `AstFGetS`
overrides none of the three; `AstFUngetC`, `AstFEof`, `AstFGetC` and
`AstFError` override only `isPure` to `false`; `AstRand`,
`AstURandomRange`, `AstTime`, `AstTimeD` and `AstTestPlusArgs` override
`isGateOptimizable` and `isPredictOptimizable` to `false` but leave
`isPure` to the base class; `AstValuePlusArgs` overrides the pair to
`false` and `isPure` to the non-constant `!outp()`; `AstCMath`'s gate and
predict predicates return its `m_pure` member (`false` at construction);
the increment/decrement kinds override none of the three; and wherever
these kinds have a fold hook at all, it is the fatal not-applicable
path, never a value-producing function. -/
theorem claim_C7_flags_and_fatal_fold :
    AstFRead.overrides = ⟨some false, some false, some false⟩
    ∧ AstFRewind.overrides = ⟨some false, some false, some false⟩
    ∧ AstFScanF.overrides = ⟨some false, some false, some false⟩
    ∧ AstFSeek.overrides = ⟨some false, some false, some false⟩
    ∧ AstFTell.overrides = ⟨some false, some false, some false⟩
    ∧ AstSScanF.overrides = ⟨some false, some false, some false⟩
    ∧ AstSystemF.overrides = ⟨some false, some false, some false⟩
    ∧ AstUCFunc.overrides = ⟨some false, some false, some false⟩
    ∧ AstFGetS.overrides = ⟨none, none, none⟩
    ∧ AstFUngetC.overrides = ⟨none, none, some false⟩
    ∧ AstFEof.overrides = ⟨none, none, some false⟩
    ∧ AstFGetC.overrides = ⟨none, none, some false⟩
    ∧ AstFError.overrides = ⟨none, none, some false⟩
    ∧ AstRand.overrides = ⟨some false, some false, none⟩
    ∧ AstURandomRange.overrides = ⟨some false, some false, none⟩
    ∧ AstTime.overrides = ⟨some false, some false, none⟩
    ∧ AstTimeD.overrides = ⟨some false, some false, none⟩
    ∧ AstTestPlusArgs.overrides = ⟨some false, some false, none⟩
    ∧ AstValuePlusArgs.isGateOptimizable = false
    ∧ AstValuePlusArgs.isPredictOptimizable = false
    ∧ AstValuePlusArgs.isPure (some 5) = false
    ∧ AstValuePlusArgs.isPure none = true
    ∧ AstCMath.isGateOptimizable false = false
    ∧ AstCMath.isPredictOptimizable false = false
    ∧ AstPostAdd.overrides = ⟨none, none, none⟩
    ∧ AstPostSub.overrides = ⟨none, none, none⟩
    ∧ AstPreAdd.overrides = ⟨none, none, none⟩
    ∧ AstPreSub.overrides = ⟨none, none, none⟩
    ∧ (∀ out lhs rhs ths, AstPostAdd.numberOperate out lhs rhs ths = .errorNA)
    ∧ (∀ out lhs rhs ths, AstPostSub.numberOperate out lhs rhs ths = .errorNA)
    ∧ (∀ out lhs rhs ths, AstPreAdd.numberOperate out lhs rhs ths = .errorNA)
    ∧ (∀ out lhs rhs ths, AstPreSub.numberOperate out lhs rhs ths = .errorNA)
    ∧ (∀ out lhs rhs, AstURandomRange.numberOperate out lhs rhs = .errorNA)
    ∧ (∀ out lhs rhs, AstFGetS.numberOperate out lhs rhs = .errorNA)
    ∧ (∀ out lhs rhs, AstFUngetC.numberOperate out lhs rhs = .errorNA)
    ∧ (∀ out lhs, AstFEof.numberOperate out lhs = .errorNA)
    ∧ (∀ out lhs, AstFGetC.numberOperate out lhs = .errorNA) :=
  ⟨rfl, rfl, rfl, rfl, rfl, rfl, rfl, rfl, rfl, rfl, rfl, rfl, rfl, rfl, rfl,
   rfl, rfl, rfl, rfl, rfl, rfl, rfl, rfl, rfl, rfl, rfl, rfl, rfl,
   fun _ _ _ _ => rfl, fun _ _ _ _ => rfl, fun _ _ _ _ => rfl, fun _ _ _ _ => rfl,
   fun _ _ _ => rfl, fun _ _ _ => rfl, fun _ _ _ => rfl,
   fun _ _ => rfl, fun _ _ => rfl⟩

/-- C8: every system math kind (the `AstNodeSystemBiop` and
`AstNodeSystemUniop` subclasses) reports `doubleFlavor()` true - a
constant of the kind, so it holds in every lifecycle state - and has its
declared data type set to the 64-bit float type by the base-class
constructor; along every lifecycle path from construction the declared
type remains the 64-bit float type, because the width pass skips
bit-width propagation for flavor-forced nodes. -/
theorem claim_C8_system_double_flavor (k : NodeKind) (hk : isSystemMath k = true) :
    doubleFlavorOf k = true
    ∧ (systemConstruct k).dtype = DType.double
    ∧ ∀ s : LifeNode,
        Relation.ReflTransGen (LifeStep (doubleFlavorOf k)) (systemConstruct k) s →
        s.dtype = DType.double := by
  have hd : doubleFlavorOf k = true := by
    cases k <;> first | rfl | exact nomatch hk
  have h0 : (systemConstruct k).dtype = DType.double := by
    unfold systemConstruct
    split <;> rfl
  refine ⟨hd, h0, ?_⟩
  intro s hs
  induction hs with
  | refl => exact h0
  | tail hab hbc ih =>
    cases hbc with
    | resolve d d' h =>
      rw [h hd]
      exact ih
    | fold d => exact ih
    | emit d => exact ih

/-- C8 witness: the invariant applied to `AstAtan2D` along the full
lifecycle `constructed -> typeResolved -> foldedOrKept -> emitted`. -/
theorem claim_C8_witness :
    (⟨LifePhase.emitted, DType.double⟩ : LifeNode).dtype = DType.double :=
  (claim_C8_system_double_flavor .atan2D (by decide)).2.2 ⟨.emitted, .double⟩
    (Relation.ReflTransGen.head (LifeStep.resolve DType.double DType.double (fun _ => rfl))
      (Relation.ReflTransGen.head (LifeStep.fold DType.double)
        (Relation.ReflTransGen.head (LifeStep.emit DType.double) Relation.ReflTransGen.refl)))

/-- C9: the renderers that are inapplicable for a kind signal the fatal
not-applicable marker and never produce ordinary text: the host-grammar
renderer (`emitC`) of the associative/dynamic/queue/wildcard aggregate
constructors, and both renderers of the variable references.  For
contrast, the applicable source-grammar renderer of `AstConsAssoc` does
produce text. -/
theorem claim_C9_inapplicable_renderers_fatal :
    AstConsAssoc.emitC = .errorNA ∧ AstConsAssoc.emitC.isText = false
    ∧ AstConsDynArray.emitC = .errorNA ∧ AstConsDynArray.emitC.isText = false
    ∧ AstConsQueue.emitC = .errorNA ∧ AstConsQueue.emitC.isText = false
    ∧ AstConsWildcard.emitC = .errorNA ∧ AstConsWildcard.emitC.isText = false
    ∧ AstVarRef.emitVerilog = .errorNA ∧ AstVarRef.emitVerilog.isText = false
    ∧ AstVarRef.emitC = .errorNA ∧ AstVarRef.emitC.isText = false
    ∧ AstVarXRef.emitVerilog = .errorNA ∧ AstVarXRef.emitVerilog.isText = false
    ∧ AstVarXRef.emitC = .errorNA ∧ AstVarXRef.emitC.isText = false
    ∧ AstConsAssoc.emitVerilog.isText = true :=
  ⟨rfl, rfl, rfl, rfl, rfl, rfl, rfl, rfl, rfl, rfl, rfl, rfl, rfl, rfl, rfl, rfl, rfl⟩

/-- C10: `AstLogOr::cloneType` calls the plain two-operand constructor, so
the clone's `m_sideEffect` member is the in-class initialiser `false`
regardless of the original's flag; since `AstLogOr::same` compares
exactly that flag, an `AstLogOr` with the flag set is never `same` as
its `cloneType` image. -/
theorem claim_C10_logOr_cloneType_drops_sideEffect
    (fl : FileLine) (x y a b : Nat) :
    cloneType ⟨fl, .logOr x y true⟩ a b = some ⟨fl, .logOr a b false⟩
    ∧ same ⟨fl, .logOr x y true⟩ ⟨fl, .logOr a b false⟩ = false :=
  ⟨rfl, rfl⟩
